import Mathlib

/-
Verification of the Aether AI Health Assistant repository.

The repository bundles a React chat client (several revisions of the same app:
frontend/src/App.jsx and the unnamed parts) with a disease-prediction backend
that is described by the backend README (data_processor.py, model_trainer.py,
predictor.py) but whose Python sources are not part of the snapshot.  The
prediction core (vocabulary, symptom matcher, feature encoder, trainer,
predictor) is therefore modelled from the specification text; the chat-client
send handlers are embedded directly from the JavaScript sources.
-/

/- ------------------------------------------------------------------ -/
/- Part 1: the disease-prediction core, modelled from the spec.        -/
/- ------------------------------------------------------------------ -/

/-- Modelled from the spec: `SymptomVocabulary` (spec section 3) — the ordered
list of unique symptom tokens, each with a non-negative severity weight,
loaded from the severity file.  The Python source (data_processor.py) is not
in the snapshot.  Order defines feature-vector index assignment. -/
abbrev SymptomVocabulary := List (String × Nat)

/-- Modelled from the spec: phrase normalization of the Symptom Matcher
(spec section 4.1) — lowercase letters, keep digits, and map punctuation and
whitespace to the canonical separator (a space). -/
def normalizeChar (c : Char) : Char :=
  if c.isAlpha then c.toLower else if c.isDigit then c else ' '

/-- Split a character list on a separator character. -/
def splitOnChar (sep : Char) : List Char → List (List Char)
  | [] => [[]]
  | c :: cs =>
    if c = sep then [] :: splitOnChar sep cs
    else
      match splitOnChar sep cs with
      | [] => [[c]]
      | w :: ws => (c :: w) :: ws

/-- Join words with single spaces (collapsing runs of separators). -/
def joinWords : List (List Char) → List Char
  | [] => []
  | [w] => w
  | w :: ws => w ++ ' ' :: joinWords ws

/-- Modelled from the spec: normalize one candidate phrase (spec section 4.1):
lowercase, trim, collapse whitespace/punctuation runs to a single space. -/
def normalizePhrase (cs : List Char) : String :=
  String.mk (joinWords ((splitOnChar ' ' (cs.map normalizeChar)).filter (fun w => w ≠ [])))

/-- Modelled from the spec: the Symptom Matcher accepts free text or a
comma-delimited list of symptom phrases (spec section 4.1, README CLI:
"Enter your symptoms separated by commas").  Empty phrases are dropped. -/
def phrasesOf (raw : String) : List String :=
  ((splitOnChar ',' raw.data).map normalizePhrase).filter (fun p => p ≠ "")

/-- Modelled from the spec: `MatchReport` (spec section 3) — resolved tokens,
and unresolved raw tokens each with a ranked list of suggestions. -/
structure MatchReport where
  resolved : List String
  unresolved : List (String × List String)
deriving DecidableEq

/-- Exact lookup of a normalized phrase against the vocabulary. -/
def inVocab (vocab : SymptomVocabulary) (p : String) : Bool :=
  vocab.any (fun tw => tw.1 = p)

/-- Ranking relation used for ranked outputs: compare (name, score) pairs by
score, highest first. -/
def byScore {β : Type} [LE β] (a b : String × β) : Prop := b.2 ≤ a.2

instance byScoreDecidable {β : Type} [LinearOrder β] : DecidableRel (byScore (β := β)) :=
  fun a b => inferInstanceAs (Decidable (b.2 ≤ a.2))

instance byScoreTotal {β : Type} [LinearOrder β] : IsTotal (String × β) byScore :=
  ⟨fun a b => (le_total b.2 a.2).imp (fun h => h) (fun h => h)⟩

instance byScoreTrans {β : Type} [LinearOrder β] : IsTrans (String × β) byScore :=
  ⟨fun _ _ _ hab hbc => le_trans hbc hab⟩

/-- Modelled from the spec: suggestions for an unresolved phrase (spec
section 4.1) — score every vocabulary entry with the (interchangeable,
deterministic, total) string-similarity strategy `sim`, keep entries at or
above the threshold `thr`, rank by score descending (insertion sort is
stable, so ties break by vocabulary order), and take the top `k`. -/
def suggestionsFor (vocab : SymptomVocabulary) (sim : String → String → Nat)
    (thr k : Nat) (p : String) : List String :=
  ((((vocab.map (fun tw => (tw.1, sim p tw.1))).filter
      (fun ts => thr ≤ ts.2)).insertionSort byScore).take k).map Prod.fst

/-- Modelled from the spec: the Symptom Matcher (spec section 4.1) — a pure
total function from raw input and vocabulary to a `MatchReport`; it never
fails, malformed phrases simply end up unresolved (with suggestions when
some entry clears the threshold, with no suggestions otherwise). -/
def matchSymptoms (vocab : SymptomVocabulary) (sim : String → String → Nat)
    (thr k : Nat) (raw : String) : MatchReport :=
  let ps := phrasesOf raw
  { resolved := ps.filter (fun p => inVocab vocab p)
    unresolved := (ps.filter (fun p => ! inVocab vocab p)).map
      (fun p => (p, suggestionsFor vocab sim thr k p)) }

/-- Modelled from the spec: the Feature Encoder's numeric map (spec
section 4.2) — one entry per vocabulary token in vocabulary order, a fixed
indicator value 1 for present tokens (the optional severity scaling is not
taken; the choice is recorded here as part of the artifact convention),
0 for absent tokens. -/
def encodeVec (vocab : SymptomVocabulary) (toks : List String) : List Nat :=
  vocab.map (fun tw => if tw.1 ∈ toks then 1 else 0)

/-- Modelled from the spec: the checked Feature Encoder (spec section 4.2) —
passing any out-of-vocabulary token is a programming error signalled as
`InvalidFeatureError`, not a user-facing condition. -/
def encode (vocab : SymptomVocabulary) (toks : List String) : Except String (List Nat) :=
  if toks.all (fun t => inVocab vocab t) then Except.ok (encodeVec vocab toks)
  else Except.error "InvalidFeatureError"

/-- Modelled from the spec: `ModelArtifact` (spec section 3) — the closed
label set fixed at training time plus the fitted classifier's inference map
from a feature vector to the per-class score vector. -/
structure ModelArtifact where
  labels : List String
  inference : List Nat → List Rat

/-- A loaded artifact is well formed when its inference call returns one
class-probability per known label, each in the interval from 0 to 1
(spec section 4.4: "probability-per-class vector"). -/
def ModelArtifact.WellFormed (art : ModelArtifact) : Prop :=
  ∀ x : List Nat, (art.inference x).length = art.labels.length ∧
    ∀ p ∈ art.inference x, 0 ≤ p ∧ p ≤ 1

/-- Modelled from the spec: the Predictor pipeline (spec section 4.4) — raw
input, Symptom Matcher, Feature Encoder, the loaded artifact's inference
call, sort descending, take `top_n`.  If zero tokens resolve it returns an
empty result plus the full `MatchReport`, a valid non-error outcome. -/
def predict (art : ModelArtifact) (vocab : SymptomVocabulary)
    (sim : String → String → Nat) (thr k : Nat)
    (raw : String) (topN : Nat) : List (String × Rat) × MatchReport :=
  let report := matchSymptoms vocab sim thr k raw
  if report.resolved = [] then ([], report)
  else
    let x := encodeVec vocab report.resolved
    let ranked := (art.labels.zip (art.inference x)).insertionSort byScore
    (ranked.take topN, report)

/-- Modelled from the spec: `TrainingExample` (spec section 3) — a pair of a
symptom presence vector over the vocabulary and a disease label. -/
abbrev TrainingExample := List Nat × String

/-- Modelled from the spec: the Trainer's data-quality failure modes
(spec sections 4.3 and 7). -/
inductive TrainError where
  | emptyTrainingSet : TrainError
  | insufficientClassDiversity : String → TrainError
deriving DecidableEq

/-- The distinct labels occurring in a training set. -/
def labelsOf (data : List TrainingExample) : List String :=
  (data.map Prod.snd).dedup

/-- Number of examples carrying a given label. -/
def labelCount (data : List TrainingExample) (l : String) : Nat :=
  (data.filter (fun ex => ex.2 = l)).length

/-- Modelled from the spec: the Model Trainer entry point (spec section 4.3,
model_trainer.py is not in the snapshot) — validation runs before any model
fitting: an empty training set is fatal, and a label with fewer than 2
examples is a reported data-quality error that aborts the run.  The actual
fitting of the classifier families is abstracted as `fit`, which is only
consulted after validation succeeds. -/
def train {M : Type} (fit : List TrainingExample → M)
    (data : List TrainingExample) : Except TrainError M :=
  if data = [] then Except.error TrainError.emptyTrainingSet
  else
    match (labelsOf data).find? (fun l => labelCount data l < 2) with
    | some l => Except.error (TrainError.insufficientClassDiversity l)
    | none => Except.ok (fit data)

/- ------------------------------------------------------------------ -/
/- Part 2: JavaScript string primitives used by the chat handlers.     -/
/- ------------------------------------------------------------------ -/

/-- ASCII fragment of the JavaScript whitespace class used by
`String.prototype.trim` and the regex class `\s`. -/
def isJsWs (c : Char) : Bool := c = ' ' || c = '\t' || c = '\n' || c = '\r'

/-- JavaScript `String.prototype.trim`: drop leading and trailing
whitespace. -/
def jsTrimL (cs : List Char) : List Char :=
  ((cs.dropWhile isJsWs).reverse.dropWhile isJsWs).reverse

/-- JavaScript `trim` on strings. -/
def jsTrimS (st : String) : String := String.mk (jsTrimL st.data)

/-- JavaScript `hay.replace(pat, "")` for a string pattern: remove the first
occurrence of `pat` from `hay` (identity when `pat` does not occur). -/
def replaceFirstL (pat : List Char) : List Char → List Char
  | [] => []
  | c :: cs =>
    if pat.isPrefixOf (c :: cs) then (c :: cs).drop pat.length
    else c :: replaceFirstL pat cs

/-- JavaScript `hay.includes(needle)`. -/
def containsSub (needle : List Char) : List Char → Bool
  | [] => needle.isEmpty
  | c :: cs => needle.isPrefixOf (c :: cs) || containsSub needle cs

/-- First occurrence of the two-character sequence `a` then `b`: returns the
characters before it and the characters after it. -/
def findPair (a b : Char) : List Char → Option (List Char × List Char)
  | [] => none
  | [_] => none
  | c :: d :: cs =>
    if c = a ∧ d = b then some ([], cs)
    else
      match findPair a b (d :: cs) with
      | some (pre, rest) => some (c :: pre, rest)
      | none => none

/-- First occurrence of a single character `t`: characters before it and
characters after it. -/
def findCharSplit (t : Char) : List Char → Option (List Char × List Char)
  | [] => none
  | c :: cs =>
    if c = t then some ([], cs)
    else
      match findCharSplit t cs with
      | some (pre, rest) => some (c :: pre, rest)
      | none => none

/-- The sanitization step of the part_005 send handler: replace every single
quote by a double quote before handing the payload to `JSON.parse`. -/
def sanitizeL (cs : List Char) : List Char :=
  cs.map (fun c => if c = Char.ofNat 39 then Char.ofNat 34 else c)

/- ------------------------------------------------------------------ -/
/- Part 3: tag extraction of the chat send handlers.                   -/
/- ------------------------------------------------------------------ -/

/-- Literal header of the part_005 chips regex. -/
def chipsHdr : List Char := "[CHIPS:".data

/-- Literal header of the part_005 summary regex. -/
def sumHdr : List Char := "[SUMMARY:".data

/-- Attempt of the part_005 chips regex `\[CHIPS:\s*(\[.*?\])\]` (dot-all) at
one start position, given the text following the literal header: greedy
whitespace, an opening bracket, then the lazy group ends at the first
occurrence of two closing brackets.  Returns the matched tail (everything
after the header) and the captured group. -/
def chipsTryAt (cs : List Char) : Option (List Char × List Char) :=
  let ws := cs.takeWhile isJsWs
  match cs.dropWhile isJsWs with
  | '[' :: cs2 =>
    match findPair ']' ']' cs2 with
    | some (content, _) =>
      some (ws ++ '[' :: (content ++ [']', ']']), '[' :: (content ++ [']']))
    | none => none
  | _ => none

/-- Attempt of the part_005 summary regex `\[SUMMARY:\s*(\{.*?\})\]`
(dot-all) at one start position: greedy whitespace, an opening brace, then
the lazy group ends at the first occurrence of a closing brace followed by a
closing bracket. -/
def summaryTryAt (cs : List Char) : Option (List Char × List Char) :=
  let ws := cs.takeWhile isJsWs
  match cs.dropWhile isJsWs with
  | '{' :: cs2 =>
    match findPair '}' ']' cs2 with
    | some (content, _) =>
      some (ws ++ '{' :: (content ++ ['}', ']']), '{' :: (content ++ ['}']))
    | none => none
  | _ => none

/-- `reply.match(/\[CHIPS:\s*(\[.*?\])\]/s)` of the part_005 send handler:
leftmost match; a start position where the tail cannot complete is skipped.
Returns the full match and the captured group. -/
def chipsMatchL : List Char → Option (List Char × List Char)
  | [] => none
  | c :: cs =>
    if chipsHdr.isPrefixOf (c :: cs) then
      match chipsTryAt ((c :: cs).drop chipsHdr.length) with
      | some (tl, cap) => some (chipsHdr ++ tl, cap)
      | none => chipsMatchL cs
    else chipsMatchL cs

/-- `modelReply.match(/\[SUMMARY:\s*(\{.*?\})\]/s)` of the part_005 send
handler: leftmost match. -/
def summaryMatchL : List Char → Option (List Char × List Char)
  | [] => none
  | c :: cs =>
    if sumHdr.isPrefixOf (c :: cs) then
      match summaryTryAt ((c :: cs).drop sumHdr.length) with
      | some (tl, cap) => some (sumHdr ++ tl, cap)
      | none => summaryMatchL cs
    else summaryMatchL cs

/-- Literal header of the frontend App.jsx chips regex (note the single
mandatory space and the absence of a bracketed-group requirement). -/
def appChipsHdr : List Char := "[CHIPS: ".data

/-- Literal header of the frontend App.jsx summary regex. -/
def appSumHdr : List Char := "[SUMMARY: ".data

/-- `aiResponse.match(/\[CHIPS: (.*?)\]/s)` of frontend/src/App.jsx (and of
part_009): leftmost match, and the lazy group stops at the FIRST closing
bracket after the header — a bracketed JSON array payload is therefore cut
at its first inner closing bracket. -/
def appChipsMatch : List Char → Option (List Char × List Char)
  | [] => none
  | c :: cs =>
    if appChipsHdr.isPrefixOf (c :: cs) then
      match findCharSplit ']' ((c :: cs).drop appChipsHdr.length) with
      | some (content, _) => some (appChipsHdr ++ content ++ [']'], content)
      | none => appChipsMatch cs
    else appChipsMatch cs

/-- Everything before the last closing bracket of the list, when one
exists. -/
def lastBracketSplit (cs : List Char) : Option (List Char) :=
  match cs.reverse.dropWhile (fun c => ¬ c = ']') with
  | [] => none
  | _ :: rest => some rest.reverse

/-- `aiResponse.match(/\[SUMMARY: (.*)\]/s)` of frontend/src/App.jsx: the
greedy group extends to the last closing bracket of the text. -/
def appSummaryMatch : List Char → Option (List Char × List Char)
  | [] => none
  | c :: cs =>
    if appSumHdr.isPrefixOf (c :: cs) then
      match lastBracketSplit ((c :: cs).drop appSumHdr.length) with
      | some content => some (appSumHdr ++ content ++ [']'], content)
      | none => appSummaryMatch cs
    else appSummaryMatch cs

/- ------------------------------------------------------------------ -/
/- Part 4: reply processing of the chat send handlers.                 -/
/- ------------------------------------------------------------------ -/

/-- The summary JSON object produced by the model inside a [SUMMARY: ...]
tag, as consumed by the part_005 send handler. -/
structure SummaryJson where
  recap : String
  possibilities : String
  homeCare : List String
  recommendation : String
deriving DecidableEq

/-- `summary.homeCare.map(item => "• " + item).join("\n")` of part_005. -/
def bulletJoin (items : List String) : String :=
  String.intercalate "\n" (items.map (fun i => "• " ++ i))

/-- The formatted summary text built by the part_005 send handler on a
successful summary parse. -/
def formatSummary (s : SummaryJson) : String :=
  "**Summary:**\n" ++ s.recap ++ "\n\n" ++
  "**Possible Causes:**\n" ++ s.possibilities ++ "\n\n" ++
  "**Home Care Advice:**\n" ++ bulletJoin s.homeCare ++ "\n\n" ++
  "**Recommendation:**\n" ++ s.recommendation ++ "\n\n"

/-- The chips block of the part_005 send handler (src/unnamed/part_005,
lines 703-718): match the robust chips regex; on a match, sanitize the
captured JSON-array payload and parse it (`pc` models `JSON.parse`, `none`
models a thrown parse error, which the handler catches, leaving the chips
empty) and ALWAYS remove the matched tag from the displayed reply. -/
def chipsPhase (pc : String → Option (List String)) (r : List Char) :
    List Char × List String :=
  match chipsMatchL r with
  | some (full, cap) =>
    (jsTrimL (replaceFirstL full r), (pc (String.mk (sanitizeL cap))).getD [])
  | none => (r, [])

/-- The summary block of the part_005 send handler (src/unnamed/part_005,
lines 720-741): match the robust summary regex; on a match, sanitize and
parse the captured JSON object; on success rebuild the reply as the
formatted summary followed by the trailing text; in every matched case the
tag is removed from the reply afterwards (on the success path the tag no
longer occurs, so that replace is the identity there). -/
def summaryPhase (ps : String → Option SummaryJson) (r : List Char) : List Char :=
  match summaryMatchL r with
  | some (full, cap) =>
    match ps (String.mk (sanitizeL cap)) with
    | some sj =>
      let trailing := jsTrimL (replaceFirstL full r)
      jsTrimL (replaceFirstL full ((formatSummary sj).data ++ trailing))
    | none => jsTrimL (replaceFirstL full r)
  | none => r

/-- The reply processing of the part_005 send handler: the chips block then
the summary block; returns the displayed text and the action chips. -/
def part005Process (pc : String → Option (List String))
    (ps : String → Option SummaryJson) (reply : String) : String × List String :=
  let rc := chipsPhase pc reply.data
  (String.mk (summaryPhase ps rc.1), rc.2)

/-- The reply processing of frontend/src/App.jsx handleSendMessage (lines
1303-1323, identical in part_009): branch on `includes`, then the lazy
chips regex (parse failure logged, chips left empty, matched text removed
and trimmed), else the greedy summary regex (on success the reply is
replaced by a fixed sentence; on failure NOTHING is removed), else the
emergency marker.  Returns the displayed text and the suggestion chips. -/
def appJsxProcess (pc : String → Option (List String))
    (ps : String → Option SummaryJson) (reply : String) : String × List String :=
  if containsSub ("[CHIPS:".data) reply.data then
    match appChipsMatch reply.data with
    | some (full, cap) =>
      (String.mk (jsTrimL (replaceFirstL full reply.data)),
       (pc (String.mk cap)).getD [])
    | none => (reply, [])
  else if containsSub ("[SUMMARY:".data) reply.data then
    match appSummaryMatch reply.data with
    | some (_, cap) =>
      match ps (String.mk cap) with
      | some _ => ("Here is a summary of our conversation.", [])
      | none => (reply, [])
    | none => (reply, [])
  else if containsSub ("[EMERGENCY]".data) reply.data then
    ("Based on your description, your symptoms may be serious. Please **contact your local emergency services immediately**.", [])
  else (reply, [])

/- ------------------------------------------------------------------ -/
/- Part 5: the frontend/src/App.jsx conversation state machine.        -/
/- ------------------------------------------------------------------ -/

/-- One chat bubble: `role: "user"` or `role: "model"` plus its text. -/
structure ChatMsg where
  isUser : Bool
  content : String
deriving DecidableEq

/-- A prediction list as returned by the /predict endpoint. -/
abbrev Predictions := List (String × Rat)

/-- The React state of frontend/src/App.jsx that bears on the send handler
(messages, localPredictions, activeChatHasPrediction, userInput, loading);
sidebar, summary and chip state are not tracked here because they do not
feed back into the prediction-request logic. -/
structure AppState where
  messages : List ChatMsg
  localPredictions : Predictions
  activeChatHasPrediction : Bool
  userInput : String
  loading : Bool
deriving DecidableEq

/-- One invocation of handleSendMessage, together with the environment it
runs in: the text typed into the input box, an optional chip-click override,
whether an image is attached, and the outcomes of the network calls the
handler may issue (`none` models a thrown/failed request). -/
structure SendEv where
  typed : String
  chipText : Option String
  hasImage : Bool
  predictNet : Option Predictions
  chatNet : Option String
  saveOk : Bool
deriving DecidableEq

/-- JavaScript `a || b` on an optional string: the override wins unless it
is absent or empty (falsy). -/
def jsOrElse (o : Option String) (dflt : String) : String :=
  match o with
  | some t => if t = "" then dflt else t
  | none => dflt

/-- The error bubble appended by the catch blocks of the send handlers. -/
def errorText : String := "Sorry, an error occurred."

/-- Number of user-role messages in a message list
(`messages.filter(m => m.role === "user").length`). -/
def userCount (ms : List ChatMsg) : Nat := (ms.filter (fun m => m.isUser)).length

/-- Result of one send: the next state, whether a /predict request was
issued, and the predictions passed to the /chat request when one was
issued. -/
structure SendOut where
  state : AppState
  predictCalled : Bool
  predsSent : Option Predictions
deriving DecidableEq

/-- The tail of App.jsx handleSendMessage after the optional /predict call:
issue the /chat request, process the reply, append the model bubble, then
save the chat (a failed save is caught and appends the error bubble);
`finally` clears the loading flag. -/
def finishChat (pc : String → Option (List String))
    (ps : String → Option SummaryJson)
    (s : AppState) (msgs1 : List ChatMsg) (e : SendEv) : AppState :=
  match e.chatNet with
  | none => { s with messages := msgs1 ++ [⟨false, errorText⟩], loading := false }
  | some reply =>
    let shown := (appJsxProcess pc ps reply).1
    let finalMsgs := msgs1 ++ [⟨false, shown⟩]
    if e.saveOk then { s with messages := finalMsgs, loading := false }
    else { s with messages := finalMsgs ++ [⟨false, errorText⟩], loading := false }

/-- frontend/src/App.jsx handleSendMessage (lines 1265-1355, identical in
part_009): guard on empty text without image; append the user bubble and
set loading; `isSymptomMessage` holds when the updated history contains
exactly 2 user messages, and only then — and only when the active chat has
no prediction yet — is a /predict request issued; its result is stored and
the `activeChatHasPrediction` flag set; a /predict failure is caught (the
/chat call is then never reached).  Every other send reuses the stored
`localPredictions` for the /chat request. -/
def appJsxSend (pc : String → Option (List String))
    (ps : String → Option SummaryJson) (s0 : AppState) (e : SendEv) : SendOut :=
  let s := { s0 with userInput := e.typed }
  let textToSend := jsOrElse e.chipText s.userInput
  if jsTrimS textToSend = "" ∧ e.hasImage = false then
    { state := s, predictCalled := false, predsSent := none }
  else
    let msgs1 := s.messages ++ [⟨true, textToSend⟩]
    let s1 := { s with messages := msgs1, userInput := "", loading := true }
    if userCount msgs1 = 2 ∧ s.activeChatHasPrediction = false then
      match e.predictNet with
      | none =>
        { state := { s1 with messages := msgs1 ++ [⟨false, errorText⟩], loading := false }
          predictCalled := true, predsSent := none }
      | some preds =>
        let s2 := { s1 with localPredictions := preds, activeChatHasPrediction := true }
        { state := finishChat pc ps s2 msgs1 e, predictCalled := true, predsSent := some preds }
    else
      { state := finishChat pc ps s1 msgs1 e, predictCalled := false
        predsSent := some s.localPredictions }

/-- The state startNewChat installs: one model greeting bubble asking for
name, age and sex; no predictions; the prediction flag cleared. -/
def newChatState : AppState :=
  { messages := [⟨false, "Hello! To provide a more personalized analysis, please tell me your name, age, and sex."⟩]
    localPredictions := [], activeChatHasPrediction := false
    userInput := "", loading := false }

/-- Run a conversation: a sequence of sends from a given state, counting the
/predict requests issued. -/
def runSends (pc : String → Option (List String))
    (ps : String → Option SummaryJson) (s : AppState) :
    List SendEv → AppState × Nat
  | [] => (s, 0)
  | e :: evs =>
    let out := appJsxSend pc ps s e
    let rest := runSends pc ps out.state evs
    (rest.1, (if out.predictCalled then 1 else 0) + rest.2)

/- ------------------------------------------------------------------ -/
/- Part 6: the part_005 send handler.                                  -/
/- ------------------------------------------------------------------ -/

/-- The /chat response consumed by the part_005 send handler: the model
reply plus optional fresh predictions. -/
structure P5ChatResp where
  reply : String
  predictions : Predictions
deriving DecidableEq

/-- The React state of src/unnamed/part_005 that the send handler touches. -/
structure P5State where
  messages : List ChatMsg
  userInput : String
  loading : Bool
  actionChips : List String
  localPredictions : Predictions
  conversationStage : String
  chats : List String
deriving DecidableEq

/-- One invocation of the part_005 handleSendMessage with its environment:
the optional chip-click override, and the outcomes of the /chat request,
the save_chat request and the chat-list refetch. -/
structure P5Ev where
  messageOverride : Option String
  chatNet : Option P5ChatResp
  saveOk : Bool
  fetched : Option (List String)
deriving DecidableEq

/-- The conversation-stage update at the end of a successful part_005 send
(src/unnamed/part_005, lines 752-755). -/
def nextStage (stage stageForBackend : String) : String :=
  if stage = "awaiting_name" then "awaiting_age"
  else if stage = "awaiting_age" then "awaiting_sex"
  else if stage = "awaiting_sex" then "awaiting_symptoms"
  else if stageForBackend = "process_symptoms" then "chatting"
  else stage

/-- src/unnamed/part_005 handleSendMessage (lines 678-773): the guard
`if (!currentInput.trim() || loading) return;` runs before ANY state write;
past it, the handler clears the chips, appends the user bubble, clears the
input, sets loading, issues the /chat request (1 request), processes the
reply, stores fresh predictions when present, advances the stage, then
saves and refetches the chat list (a second request; a failed save is
caught and appends the error bubble).  Returns the next state and the
number of network requests issued. -/
def part005Send (pc : String → Option (List String))
    (ps : String → Option SummaryJson) (s : P5State) (e : P5Ev) : P5State × Nat :=
  let currentInput := jsOrElse e.messageOverride s.userInput
  if jsTrimS currentInput = "" ∨ s.loading = true then (s, 0)
  else
    let msgs1 := s.messages ++ [⟨true, currentInput⟩]
    let s2 := { s with actionChips := [], messages := msgs1, userInput := "", loading := true }
    let stageForBackend :=
      if s.conversationStage = "awaiting_symptoms" then "process_symptoms"
      else s.conversationStage
    match e.chatNet with
    | none => ({ s2 with messages := msgs1 ++ [⟨false, errorText⟩], loading := false }, 1)
    | some resp =>
      let shown := part005Process pc ps resp.reply
      let s3 := { s2 with actionChips := shown.2 }
      let s4 := if resp.predictions ≠ [] then { s3 with localPredictions := resp.predictions } else s3
      let finalMsgs := msgs1 ++ [⟨false, shown.1⟩]
      let s5 := { s4 with messages := finalMsgs
                          conversationStage := nextStage s.conversationStage stageForBackend }
      if e.saveOk then
        match e.fetched with
        | some cs => ({ s5 with chats := cs, loading := false }, 2)
        | none => ({ s5 with loading := false }, 2)
      else ({ s5 with messages := finalMsgs ++ [⟨false, errorText⟩], loading := false }, 2)

/- ------------------------------------------------------------------ -/
/- Part 7: concrete fixtures used by witnesses and counterexamples.    -/
/- ------------------------------------------------------------------ -/

/-- A small concrete vocabulary with severity weights. -/
def vocab0 : SymptomVocabulary :=
  [("fever", 3), ("headache", 2), ("fatigue", 1), ("nausea", 2)]

/-- A concrete deterministic total similarity strategy (exact match scores
100, anything else 0). -/
def sim0 : String → String → Nat := fun a b => if a = b then 100 else 0

/-- A concrete well-formed artifact over four disease labels whose
inference call returns a fixed probability vector. -/
def art0 : ModelArtifact :=
  { labels := ["Common Cold", "Flu", "Migraine", "Allergy"]
    inference := fun _ => [(1 : Rat)/2, 1/4, 1/8, 1/8] }

/-- A `JSON.parse` model that always throws (used where the payload is
malformed). -/
def noParseChips : String → Option (List String) := fun _ => none

/-- A summary `JSON.parse` model that always throws. -/
def noParseSummary : String → Option SummaryJson := fun _ => none

/-- A send event: the user typed some text, no chip click, no image, and
both network calls succeed. -/
def ev0 (txt reply : String) : SendEv :=
  { typed := txt, chipText := none, hasImage := false
    predictNet := some [("Flu", (3 : Rat)/4)], chatNet := some reply, saveOk := true }

/-- A concrete App.jsx state holding exactly one user message (the
personal-details message) and no stored prediction. -/
def sOneUser : AppState :=
  { messages := [⟨false, "greeting"⟩, ⟨true, "I am Alex, 35"⟩,
                 ⟨false, "What are your symptoms?"⟩]
    localPredictions := [], activeChatHasPrediction := false
    userInput := "", loading := false }

/-- A concrete part_005 state with whitespace-only pending input. -/
def p5s0 : P5State :=
  { messages := [⟨false, "hello"⟩], userInput := "   ", loading := false
    actionChips := ["chip"], localPredictions := [("Flu", (1 : Rat)/2)]
    conversationStage := "chatting", chats := ["c1"] }

/-- A concrete part_005 state that is mid-request (loading). -/
def p5s1 : P5State :=
  { messages := [⟨false, "hello"⟩], userInput := "fever", loading := true
    actionChips := [], localPredictions := []
    conversationStage := "awaiting_symptoms", chats := [] }

/-- A concrete part_005 send event whose network calls would succeed. -/
def p5e0 : P5Ev :=
  { messageOverride := none, chatNet := some ⟨"ok", []⟩, saveOk := true
    fetched := none }

/-- Concrete reply text carrying a chips tag (gate example for the part_005
chips regex). -/
def chipsEx : List Char := "x [CHIPS: [1]] y".data

/-- The full match of the part_005 chips regex on `chipsEx`. -/
def chipsExFull : List Char := "[CHIPS: [1]]".data

/-- The captured group of the part_005 chips regex on `chipsEx`. -/
def chipsExCap : List Char := "[1]".data

/-- Concrete reply text carrying a summary tag. -/
def sumEx : List Char := "a [SUMMARY: \x7bq\x7d] b".data

/-- The full match of the part_005 summary regex on `sumEx`. -/
def sumExFull : List Char := "[SUMMARY: \x7bq\x7d]".data

/-- The captured group of the part_005 summary regex on `sumEx`. -/
def sumExCap : List Char := "\x7bq\x7d".data

/- ------------------------------------------------------------------ -/
/- Part 8: helper lemmas.                                              -/
/- ------------------------------------------------------------------ -/

theorem phrasesOf_empty : phrasesOf "" = [] := by decide

theorem matchSymptoms_empty (vocab : SymptomVocabulary) (sim : String → String → Nat)
    (thr k : Nat) : matchSymptoms vocab sim thr k "" = ⟨[], []⟩ := by
  simp [matchSymptoms, phrasesOf_empty]

theorem length_filter_split {α : Type} (p : α → Bool) (l : List α) :
    (l.filter p).length + (l.filter (fun a => ! p a)).length = l.length := by
  induction l with
  | nil => rfl
  | cons a l ih =>
    by_cases h : p a <;>
      simp [List.filter_cons, h, Nat.add_assoc, Nat.add_comm, Nat.add_left_comm, ← ih]

theorem mem_suggestionsFor {vocab : SymptomVocabulary} {sim : String → String → Nat}
    {thr k : Nat} {p t : String} (h : t ∈ suggestionsFor vocab sim thr k p) :
    thr ≤ sim p t ∧ ∃ w, (t, w) ∈ vocab := by
  unfold suggestionsFor at h
  obtain ⟨pair, hpair, hfst⟩ := List.mem_map.mp h
  have h1 : pair ∈ ((vocab.map (fun tw => (tw.1, sim p tw.1))).filter
      (fun ts => thr ≤ ts.2)).insertionSort byScore := List.mem_of_mem_take hpair
  have h2 := (List.mem_insertionSort _).mp h1
  obtain ⟨h3, h4⟩ := List.mem_filter.mp h2
  obtain ⟨tw, htw, heq⟩ := List.mem_map.mp h3
  subst hfst
  have hfst' : tw.1 = pair.1 := by rw [← heq]
  have hsnd : sim p tw.1 = pair.2 := by rw [← heq]
  constructor
  · rw [hfst'] at hsnd
    rw [hsnd]
    exact of_decide_eq_true h4
  · exact ⟨tw.2, by rwa [← hfst', Prod.mk.eta]⟩

theorem suggestionsFor_eq_nil_iff {vocab : SymptomVocabulary}
    {sim : String → String → Nat} {thr k : Nat} {p : String} (hk : 1 ≤ k) :
    suggestionsFor vocab sim thr k p = [] ↔ ∀ tw ∈ vocab, sim p tw.1 < thr := by
  unfold suggestionsFor
  rw [List.map_eq_nil_iff, List.take_eq_nil_iff]
  constructor
  · intro h tw htw
    rcases h with h | h
    · omega
    · have hlen := List.length_insertionSort byScore
        ((vocab.map (fun tw => (tw.1, sim p tw.1))).filter (fun ts => thr ≤ ts.2))
      rw [h] at hlen
      have hnil : (vocab.map (fun tw => (tw.1, sim p tw.1))).filter
          (fun ts => thr ≤ ts.2) = [] := List.length_eq_zero.mp hlen.symm
      have := List.filter_eq_nil_iff.mp hnil (tw.1, sim p tw.1)
        (List.mem_map.mpr ⟨tw, htw, rfl⟩)
      simpa using this
  · intro h
    right
    rw [← List.length_eq_zero, List.length_insertionSort, List.length_eq_zero]
    rw [List.filter_eq_nil_iff]
    intro pair hpair
    obtain ⟨tw, htw, heq⟩ := List.mem_map.mp hpair
    subst heq
    simpa using Nat.not_le.mpr (h tw htw)

/- ------------------------------------------------------------------ -/
/- Part 9: the claims about the prediction core.                       -/
/- ------------------------------------------------------------------ -/

/-- C1: for every PredictionResult returned by predict(symptoms, top_n) on a
well-formed artifact, the confidence values are non-increasing from the
first entry to the last, every confidence lies in the interval from 0 to 1,
and the number of entries is at most min(top_n, number of known disease
labels). -/
theorem predict_ranking_invariant (art : ModelArtifact) (vocab : SymptomVocabulary)
    (sim : String → String → Nat) (thr k : Nat) (raw : String) (topN : Nat)
    (hart : art.WellFormed) :
    List.Pairwise (fun a b : String × Rat => b.2 ≤ a.2)
      (predict art vocab sim thr k raw topN).1 ∧
    (∀ pr ∈ (predict art vocab sim thr k raw topN).1, 0 ≤ pr.2 ∧ pr.2 ≤ 1) ∧
    (predict art vocab sim thr k raw topN).1.length ≤ min topN art.labels.length := by
  by_cases hres : (matchSymptoms vocab sim thr k raw).resolved = []
  · simp [predict, hres]
  · have hpred : (predict art vocab sim thr k raw topN).1 =
        ((art.labels.zip (art.inference
          (encodeVec vocab (matchSymptoms vocab sim thr k raw).resolved))).insertionSort
            byScore).take topN := by
      simp [predict, hres]
    rw [hpred]
    refine ⟨?_, ?_, ?_⟩
    · exact List.Pairwise.sublist (List.take_sublist _ _)
        (List.sorted_insertionSort byScore _)
    · intro pr hpr
      have h1 := List.mem_of_mem_take hpr
      rw [List.mem_insertionSort] at h1
      have h2 : (pr.1, pr.2) ∈ art.labels.zip (art.inference
          (encodeVec vocab (matchSymptoms vocab sim thr k raw).resolved)) := by
        simpa using h1
      exact (hart _).2 pr.2 (List.of_mem_zip h2).2
    · rw [List.length_take, List.length_insertionSort, List.length_zip, (hart _).1]
      omega

/-- C1 witness: the invariant instantiated at a concrete well-formed
artifact, vocabulary and input. -/
theorem predict_ranking_invariant_witness :
    List.Pairwise (fun a b : String × Rat => b.2 ≤ a.2)
      (predict art0 vocab0 sim0 60 3 "fever" 5).1 ∧
    (∀ pr ∈ (predict art0 vocab0 sim0 60 3 "fever" 5).1, 0 ≤ pr.2 ∧ pr.2 ≤ 1) ∧
    (predict art0 vocab0 sim0 60 3 "fever" 5).1.length ≤ min 5 art0.labels.length :=
  predict_ranking_invariant art0 vocab0 sim0 60 3 "fever" 5 (by
    intro x
    refine ⟨rfl, ?_⟩
    intro p hp
    simp only [art0, List.mem_cons, List.not_mem_nil, or_false] at hp
    rcases hp with h | h | h | h <;> subst h <;> constructor <;> norm_num)

/-- C2: for a fixed loaded artifact and vocabulary, predict is
deterministic — identical inputs give identical results — and the Feature
Encoder maps identical (as sets) input token sets to identical vectors. -/
theorem predict_and_encoder_deterministic :
    (∀ (art : ModelArtifact) (vocab : SymptomVocabulary)
       (sim : String → String → Nat) (thr k : Nat) (s1 s2 : String) (n1 n2 : Nat),
       s1 = s2 → n1 = n2 →
       predict art vocab sim thr k s1 n1 = predict art vocab sim thr k s2 n2) ∧
    (∀ (vocab : SymptomVocabulary) (t1 t2 : List String),
       (∀ t, t ∈ t1 ↔ t ∈ t2) → encodeVec vocab t1 = encodeVec vocab t2) := by
  constructor
  · intro art vocab sim thr k s1 s2 n1 n2 hs hn
    rw [hs, hn]
  · intro vocab t1 t2 h
    unfold encodeVec
    refine List.map_congr_left (fun tw _ => ?_)
    by_cases ht : tw.1 ∈ t1
    · rw [if_pos ht, if_pos ((h tw.1).mp ht)]
    · rw [if_neg ht, if_neg (fun hc => ht ((h tw.1).mpr hc))]

/-- C2 witness: determinism and encoder set-extensionality at concrete
inputs. -/
theorem predict_and_encoder_deterministic_witness :
    predict art0 vocab0 sim0 60 3 "fever" 3 = predict art0 vocab0 sim0 60 3 "fever" 3 ∧
    encodeVec vocab0 ["fever", "cough"] = encodeVec vocab0 ["cough", "fever", "fever"] :=
  ⟨predict_and_encoder_deterministic.1 art0 vocab0 sim0 60 3 "fever" "fever" 3 3 rfl rfl,
   predict_and_encoder_deterministic.2 vocab0 ["fever", "cough"] ["cough", "fever", "fever"]
     (by intro t; simp only [List.mem_cons, List.not_mem_nil, or_false]; tauto)⟩

/-- C3: predict on the empty string — and on any input where zero tokens
resolve against the vocabulary — returns a PredictionResult with zero
entries together with the full MatchReport (whose unresolved entries carry
the suggestions), and is a total function (no error is raised). -/
theorem predict_degenerate_input :
    (∀ (art : ModelArtifact) (vocab : SymptomVocabulary)
       (sim : String → String → Nat) (thr k topN : Nat),
       predict art vocab sim thr k "" topN = ([], matchSymptoms vocab sim thr k "")) ∧
    (∀ (art : ModelArtifact) (vocab : SymptomVocabulary)
       (sim : String → String → Nat) (thr k topN : Nat) (raw : String),
       (matchSymptoms vocab sim thr k raw).resolved = [] →
       predict art vocab sim thr k raw topN = ([], matchSymptoms vocab sim thr k raw)) := by
  constructor
  · intro art vocab sim thr k topN
    simp [predict, matchSymptoms_empty vocab sim thr k]
  · intro art vocab sim thr k topN raw hres
    simp [predict, hres]

/-- C3 witness: a concrete input none of whose tokens resolves. -/
theorem predict_degenerate_input_witness :
    predict art0 vocab0 sim0 60 3 "zzz qqq" 3 =
      ([], matchSymptoms vocab0 sim0 60 3 "zzz qqq") :=
  predict_degenerate_input.2 art0 vocab0 sim0 60 3 3 "zzz qqq" (by decide)

/-- C4 (amended): for every call predict(symptoms, top_n) on a well-formed
artifact in which at least one token resolves, a top_n at or above the
number of known labels is clamped — the call succeeds and returns exactly
one entry per known label. -/
theorem predict_topn_clamped (art : ModelArtifact) (vocab : SymptomVocabulary)
    (sim : String → String → Nat) (thr k : Nat) (raw : String) (topN : Nat)
    (hart : art.WellFormed)
    (hres : (matchSymptoms vocab sim thr k raw).resolved ≠ [])
    (htop : art.labels.length ≤ topN) :
    (predict art vocab sim thr k raw topN).1.length = art.labels.length := by
  have hpred : (predict art vocab sim thr k raw topN).1 =
      ((art.labels.zip (art.inference
        (encodeVec vocab (matchSymptoms vocab sim thr k raw).resolved))).insertionSort
          byScore).take topN := by
    simp [predict, hres]
  rw [hpred, List.length_take, List.length_insertionSort, List.length_zip, (hart _).1]
  omega

/-- C4 counterexample: the claim as stated quantifies over every call, but a
call in which no token resolves returns zero entries, not one entry per
known label: predict("zzz", 1000) on the four-label artifact satisfies the
claim's hypotheses (top_n at least 1 and above the label count) yet returns
0 entries, not 4. -/
theorem predict_topn_unresolved_counterexample :
    (1 ≤ 1000 ∧ art0.labels.length < 1000) ∧
    (predict art0 vocab0 sim0 60 3 "zzz" 1000).1.length = 0 ∧
    (predict art0 vocab0 sim0 60 3 "zzz" 1000).1.length ≠ art0.labels.length := by
  decide

/-- C4 witness: the amended clamping claim at a concrete resolving input:
top_n 1000 with 4 known labels yields exactly 4 entries. -/
theorem predict_topn_clamped_witness :
    (predict art0 vocab0 sim0 60 3 "fever" 1000).1.length = art0.labels.length :=
  predict_topn_clamped art0 vocab0 sim0 60 3 "fever" 1000 (by
    intro x
    refine ⟨rfl, ?_⟩
    intro p hp
    simp only [art0, List.mem_cons, List.not_mem_nil, or_false] at hp
    rcases hp with h | h | h | h <;> subst h <;> constructor <;> norm_num)
    (by decide) (by decide)

/-- C5: the Symptom Matcher is total on user input: it is a pure function
returning a MatchReport for every raw string; empty input yields an empty
report; every phrase of the input is classified (resolved plus unresolved
counts exhaust the phrase list); resolved phrases are vocabulary members;
unresolved phrases are non-members whose suggestions all clear the
similarity threshold and point at vocabulary entries, and the suggestions
are empty exactly when no vocabulary entry clears the threshold. -/
theorem matcher_total_never_raises (vocab : SymptomVocabulary)
    (sim : String → String → Nat) (thr k : Nat) (raw : String) (hk : 1 ≤ k) :
    matchSymptoms vocab sim thr k "" = ⟨[], []⟩ ∧
    (matchSymptoms vocab sim thr k raw).resolved.length +
      (matchSymptoms vocab sim thr k raw).unresolved.length = (phrasesOf raw).length ∧
    (∀ p ∈ (matchSymptoms vocab sim thr k raw).resolved, inVocab vocab p = true) ∧
    (∀ pu ∈ (matchSymptoms vocab sim thr k raw).unresolved,
       inVocab vocab pu.1 = false ∧
       (∀ t ∈ pu.2, thr ≤ sim pu.1 t ∧ ∃ w, (t, w) ∈ vocab) ∧
       (pu.2 = [] ↔ ∀ tw ∈ vocab, sim pu.1 tw.1 < thr)) := by
  refine ⟨matchSymptoms_empty vocab sim thr k, ?_, ?_, ?_⟩
  · simp only [matchSymptoms, List.length_map]
    exact length_filter_split _ _
  · intro p hp
    simp only [matchSymptoms] at hp
    exact (List.mem_filter.mp hp).2
  · intro pu hpu
    simp only [matchSymptoms] at hpu
    obtain ⟨p, hp, heq⟩ := List.mem_map.mp hpu
    subst heq
    have hnp := (List.mem_filter.mp hp).2
    refine ⟨by simpa using hnp, ?_, ?_⟩
    · intro t ht
      exact mem_suggestionsFor ht
    · exact suggestionsFor_eq_nil_iff hk

/-- C5 witness: the matcher at a concrete malformed input with arbitrary
casing, punctuation and spacing. -/
theorem matcher_total_never_raises_witness :
    matchSymptoms vocab0 sim0 60 3 "" = ⟨[], []⟩ ∧
    (matchSymptoms vocab0 sim0 60 3 "  FeVer!!,   zzz??  ").resolved.length +
      (matchSymptoms vocab0 sim0 60 3 "  FeVer!!,   zzz??  ").unresolved.length =
      (phrasesOf "  FeVer!!,   zzz??  ").length ∧
    (∀ p ∈ (matchSymptoms vocab0 sim0 60 3 "  FeVer!!,   zzz??  ").resolved,
       inVocab vocab0 p = true) ∧
    (∀ pu ∈ (matchSymptoms vocab0 sim0 60 3 "  FeVer!!,   zzz??  ").unresolved,
       inVocab vocab0 pu.1 = false ∧
       (∀ t ∈ pu.2, 60 ≤ sim0 pu.1 t ∧ ∃ w, (t, w) ∈ vocab0) ∧
       (pu.2 = [] ↔ ∀ tw ∈ vocab0, sim0 pu.1 tw.1 < 60)) :=
  matcher_total_never_raises vocab0 sim0 60 3 "  FeVer!!,   zzz??  " (by decide)

/-- C6: the Feature Encoder, applied to any token set, returns a vector of
length exactly the vocabulary size in which each absent token's position
holds zero; the checked encoder accepts any set of resolved vocabulary
tokens; the empty token set encodes to the all-zero vector; and the full
vocabulary encodes to a vector with no zero entries. -/
theorem encoder_roundtrip (vocab : SymptomVocabulary) (toks : List String) :
    (encodeVec vocab toks).length = vocab.length ∧
    ((∀ t ∈ toks, inVocab vocab t = true) →
       encode vocab toks = Except.ok (encodeVec vocab toks)) ∧
    encodeVec vocab [] = List.replicate vocab.length 0 ∧
    (∀ (i : Nat) (h1 : i < vocab.length) (h2 : i < (encodeVec vocab toks).length),
       (vocab.get ⟨i, h1⟩).1 ∉ toks → (encodeVec vocab toks).get ⟨i, h2⟩ = 0) ∧
    ((∀ tw ∈ vocab, tw.1 ∈ toks) → ∀ v ∈ encodeVec vocab toks, v ≠ 0) := by
  refine ⟨List.length_map .., ?_, ?_, ?_, ?_⟩
  · intro h
    unfold encode
    rw [if_pos (List.all_eq_true.mpr (fun t ht => h t ht))]
  · unfold encodeVec
    rw [← List.map_const' vocab 0]
    exact List.map_congr_left (fun tw _ => by simp)
  · intro i h1 h2 hnot
    show (encodeVec vocab toks)[i] = 0
    unfold encodeVec at h2 ⊢
    rw [List.getElem_map]
    exact if_neg hnot
  · intro h v hv
    obtain ⟨tw, htw, heq⟩ := List.mem_map.mp hv
    rw [← heq, if_pos (h tw htw)]
    exact one_ne_zero

/-- C6 witness: the encoder properties at the concrete vocabulary, with the
checked encoder accepting the full vocabulary and an index whose token is
absent. -/
theorem encoder_roundtrip_witness :
    encode vocab0 ["fever", "headache", "fatigue", "nausea"] =
      Except.ok (encodeVec vocab0 ["fever", "headache", "fatigue", "nausea"]) ∧
    (∀ v ∈ encodeVec vocab0 ["fever", "headache", "fatigue", "nausea"], v ≠ 0) ∧
    (encodeVec vocab0 ["fever"]).get ⟨1, by decide⟩ = 0 :=
  ⟨(encoder_roundtrip vocab0 ["fever", "headache", "fatigue", "nausea"]).2.1 (by decide),
   (encoder_roundtrip vocab0 ["fever", "headache", "fatigue", "nausea"]).2.2.2.2
     (by decide),
   (encoder_roundtrip vocab0 ["fever"]).2.2.2.1 1 (by decide) (by decide) (by decide)⟩

/-- C7: the Trainer fails before any model fitting starts whenever the
training data is insufficient: an empty training set is fatal; a label with
fewer than 2 examples aborts the run; in both cases the result does not
depend on the fitting function (fitting never starts); and a successful run
certifies that the data was non-empty with at least 2 examples per label. -/
theorem train_insufficient_data_aborts {M : Type}
    (fit fit2 : List TrainingExample → M) (data : List TrainingExample) :
    (data = [] → train fit data = Except.error TrainError.emptyTrainingSet) ∧
    ((∃ l ∈ labelsOf data, labelCount data l < 2) →
       ∃ l2, train fit data = Except.error (TrainError.insufficientClassDiversity l2)) ∧
    ((data = [] ∨ ∃ l ∈ labelsOf data, labelCount data l < 2) →
       train fit data = train fit2 data) ∧
    (∀ m, train fit data = Except.ok m →
       data ≠ [] ∧ ∀ l ∈ labelsOf data, 2 ≤ labelCount data l) := by
  have hfind : (∃ l ∈ labelsOf data, labelCount data l < 2) →
      ∃ l2, (labelsOf data).find? (fun l => labelCount data l < 2) = some l2 := by
    rintro ⟨l, hl, hcount⟩
    have hsome : ((labelsOf data).find? (fun l => labelCount data l < 2)).isSome :=
      List.find?_isSome.mpr ⟨l, hl, by simpa using hcount⟩
    exact Option.isSome_iff_exists.mp hsome
  refine ⟨?_, ?_, ?_, ?_⟩
  · intro h
    simp [train, h]
  · intro h
    obtain ⟨l, hl, hcount⟩ := h
    have hne : data ≠ [] := by
      intro hd
      subst hd
      simp [labelsOf] at hl
    obtain ⟨l2, hl2⟩ := hfind ⟨l, hl, hcount⟩
    exact ⟨l2, by simp [train, hne, hl2]⟩
  · intro h
    rcases h with h | h
    · simp [train, h]
    · have hne : data ≠ [] := by
        intro hd
        obtain ⟨l, hl, _⟩ := h
        subst hd
        simp [labelsOf] at hl
      obtain ⟨l2, hl2⟩ := hfind h
      simp [train, hne, hl2]
  · intro m hm
    by_cases hd : data = []
    · simp [train, hd] at hm
    · refine ⟨hd, ?_⟩
      intro l hl
      unfold train at hm
      rw [if_neg hd] at hm
      cases hfd : (labelsOf data).find? (fun l => labelCount data l < 2) with
      | some l2 => rw [hfd] at hm; exact absurd hm (by simp)
      | none =>
        have := List.find?_eq_none.mp hfd l hl
        simpa using this

/-- C7 witness: the empty training set is rejected, and a set with a
single-example label is rejected with a class-diversity error, for a
concrete fitting function. -/
theorem train_insufficient_data_aborts_witness :
    train (fun _ => (0 : Nat)) ([] : List TrainingExample) =
      Except.error TrainError.emptyTrainingSet ∧
    (∃ l2, train (fun _ => (0 : Nat)) [(([1, 0] : List Nat), "Flu")] =
      Except.error (TrainError.insufficientClassDiversity l2)) :=
  ⟨(train_insufficient_data_aborts (fun _ => (0 : Nat)) (fun _ => 0) []).1 rfl,
   (train_insufficient_data_aborts (fun _ => (0 : Nat)) (fun _ => 0)
     [(([1, 0] : List Nat), "Flu")]).2.1 ⟨"Flu", by decide, by decide⟩⟩

/- ------------------------------------------------------------------ -/
/- Part 10: the claims about the chat send handlers.                   -/
/- ------------------------------------------------------------------ -/

theorem userCount_append_model (ms : List ChatMsg) (txt : String) :
    userCount (ms ++ [⟨false, txt⟩]) = userCount ms := by
  simp [userCount, List.filter_append]

theorem userCount_append_user (ms : List ChatMsg) (txt : String) :
    userCount (ms ++ [⟨true, txt⟩]) = userCount ms + 1 := by
  simp [userCount, List.filter_append]

theorem finishChat_count (pc : String → Option (List String))
    (ps : String → Option SummaryJson) (s : AppState) (msgs1 : List ChatMsg)
    (e : SendEv) :
    userCount (finishChat pc ps s msgs1 e).messages = userCount msgs1 := by
  unfold finishChat
  cases e.chatNet with
  | none => simp [userCount, List.filter_append]
  | some reply => by_cases hs : e.saveOk <;> simp [hs, userCount, List.filter_append]

theorem appJsxSend_step (pc : String → Option (List String))
    (ps : String → Option SummaryJson) (s : AppState) (e : SendEv) :
    ((appJsxSend pc ps s e).predictCalled = true →
       userCount s.messages = 1 ∧ s.activeChatHasPrediction = false ∧
       userCount (appJsxSend pc ps s e).state.messages = 2) ∧
    (2 ≤ userCount s.messages →
       (appJsxSend pc ps s e).predictCalled = false ∧
       2 ≤ userCount (appJsxSend pc ps s e).state.messages) ∧
    ((appJsxSend pc ps s e).predictCalled = false →
       ∀ p, (appJsxSend pc ps s e).predsSent = some p → p = s.localPredictions) := by
  unfold appJsxSend
  dsimp only
  by_cases hg : jsTrimS (jsOrElse e.chipText e.typed) = "" ∧ e.hasImage = false
  · rw [if_pos hg]
    refine ⟨?_, ?_, ?_⟩
    · intro h
      simp at h
    · intro h
      exact ⟨rfl, h⟩
    · intro _ p hp
      simp at hp
  · rw [if_neg hg]
    by_cases hsym : userCount (s.messages ++
        [⟨true, jsOrElse e.chipText e.typed⟩]) = 2 ∧ s.activeChatHasPrediction = false
    · rw [if_pos hsym]
      cases hp : e.predictNet with
      | none =>
        refine ⟨?_, ?_, ?_⟩
        · intro _
          rw [userCount_append_user] at hsym
          refine ⟨by omega, hsym.2, ?_⟩
          rw [userCount_append_model, userCount_append_user]
          omega
        · intro h2
          rw [userCount_append_user] at hsym
          omega
        · intro hc
          simp at hc
      | some preds =>
        refine ⟨?_, ?_, ?_⟩
        · intro _
          rw [userCount_append_user] at hsym
          refine ⟨by omega, hsym.2, ?_⟩
          rw [finishChat_count, userCount_append_user]
          omega
        · intro h2
          rw [userCount_append_user] at hsym
          omega
        · intro hc
          simp at hc
    · rw [if_neg hsym]
      refine ⟨?_, ?_, ?_⟩
      · intro h
        simp at h
      · intro h2
        refine ⟨rfl, ?_⟩
        rw [finishChat_count, userCount_append_user]
        omega
      · intro _ p hp
        simp only [Option.some.injEq] at hp
        exact hp.symm

theorem runSends_zero_of_ge_two (pc : String → Option (List String))
    (ps : String → Option SummaryJson) :
    ∀ (evs : List SendEv) (s : AppState),
      2 ≤ userCount s.messages → (runSends pc ps s evs).2 = 0
  | [], _, _ => rfl
  | e :: evs, s, h => by
    have hf := (appJsxSend_step pc ps s e).2.1 h
    simp only [runSends]
    rw [hf.1]
    simpa using runSends_zero_of_ge_two pc ps evs _ hf.2

theorem runSends_le_one (pc : String → Option (List String))
    (ps : String → Option SummaryJson) :
    ∀ (evs : List SendEv) (s : AppState), (runSends pc ps s evs).2 ≤ 1
  | [], _ => by simp [runSends]
  | e :: evs, s => by
    simp only [runSends]
    cases hcall : (appJsxSend pc ps s e).predictCalled with
    | false =>
      have hrest := runSends_le_one pc ps evs (appJsxSend pc ps s e).state
      simpa [hcall] using hrest
    | true =>
      have h2 := ((appJsxSend_step pc ps s e).1 hcall).2.2
      have hz := runSends_zero_of_ge_two pc ps evs (appJsxSend pc ps s e).state (by omega)
      simp [hcall, hz]

/-- C8: within one conversation (any sequence of sends from the fresh-chat
state of frontend/src/App.jsx), the send handler issues at most one request
to the /predict endpoint; a /predict request is issued only on the
designated first symptom message (the send that makes the user-message
count reach 2, with no prediction stored yet); and every send that does not
issue a /predict request passes the stored `localPredictions` unchanged to
the /chat request. -/
theorem chat_predicts_once (pc : String → Option (List String))
    (ps : String → Option SummaryJson) (evs : List SendEv) :
    (runSends pc ps newChatState evs).2 ≤ 1 ∧
    (∀ (s : AppState) (e : SendEv), (appJsxSend pc ps s e).predictCalled = true →
       userCount s.messages = 1 ∧ s.activeChatHasPrediction = false) ∧
    (∀ (s : AppState) (e : SendEv) (p : Predictions),
       (appJsxSend pc ps s e).predictCalled = false →
       (appJsxSend pc ps s e).predsSent = some p → p = s.localPredictions) :=
  ⟨runSends_le_one pc ps evs newChatState,
   fun s e h => ⟨((appJsxSend_step pc ps s e).1 h).1, ((appJsxSend_step pc ps s e).1 h).2.1⟩,
   fun s e p hc hp => (appJsxSend_step pc ps s e).2.2 hc p hp⟩

/-- C8 witness: a concrete three-send conversation issues at most one
/predict request; a concrete send that issues one starts from exactly one
user message with no stored prediction; and a concrete non-predicting send
passes the stored (empty) predictions to /chat. -/
theorem chat_predicts_once_witness :
    (runSends noParseChips noParseSummary newChatState
      [ev0 "I am Alex, 35" "thanks", ev0 "fever" "noted", ev0 "ok" "bye"]).2 ≤ 1 ∧
    (userCount sOneUser.messages = 1 ∧ sOneUser.activeChatHasPrediction = false) ∧
    ([] : Predictions) = newChatState.localPredictions :=
  ⟨(chat_predicts_once noParseChips noParseSummary
      [ev0 "I am Alex, 35" "thanks", ev0 "fever" "noted", ev0 "ok" "bye"]).1,
   (chat_predicts_once noParseChips noParseSummary []).2.1 sOneUser
     (ev0 "fever" "noted") (by decide),
   (chat_predicts_once noParseChips noParseSummary []).2.2 newChatState
     (ev0 "hello" "hi") [] (by decide) (by decide)⟩

/-- C9 counterexample: in the frontend/src/App.jsx revision of the handler
(same code in part_009), the lazy chips regex cuts a bracketed JSON array
payload at its first inner closing bracket, so for the reply
"[CHIPS: ["1"]] hello" only the text up to that bracket is removed: the
displayed message is "] hello" — part of the tag survives — instead of the
claimed "hello" with the whole tag removed. -/
theorem appjsx_chips_tag_not_fully_removed :
    (appJsxProcess noParseChips noParseSummary "[CHIPS: [\x221\x22]] hello").1 =
      "] hello" ∧
    (appJsxProcess noParseChips noParseSummary "[CHIPS: [\x221\x22]] hello").1 ≠
      "hello" ∧
    containsSub ("]".data)
      ((appJsxProcess noParseChips noParseSummary "[CHIPS: [\x221\x22]] hello").1).data
      = true := by
  decide

/-- C9 (amended): in the part_005 revision of the send handler, whenever
the chips regex matches the model reply the matched [CHIPS: ...] tag is
removed from the displayed message and the text trimmed, even when the JSON
payload fails to parse (the chips then stay empty); whenever the summary
regex matches and its JSON payload fails to parse, the matched
[SUMMARY: ...] tag is removed and the remaining reply text is shown
unformatted; the displayed message is always produced (the handler does
not throw) as the chips block followed by the summary block. -/
theorem part005_tag_removed_on_parse_failure :
    (∀ (pc : String → Option (List String)) (r full cap : List Char),
       chipsMatchL r = some (full, cap) →
       (chipsPhase pc r).1 = jsTrimL (replaceFirstL full r) ∧
       (pc (String.mk (sanitizeL cap)) = none → (chipsPhase pc r).2 = [])) ∧
    (∀ (ps : String → Option SummaryJson) (r full cap : List Char),
       summaryMatchL r = some (full, cap) →
       ps (String.mk (sanitizeL cap)) = none →
       summaryPhase ps r = jsTrimL (replaceFirstL full r)) ∧
    (∀ (pc : String → Option (List String)) (ps : String → Option SummaryJson)
       (reply : String),
       part005Process pc ps reply =
         (String.mk (summaryPhase ps (chipsPhase pc reply.data).1),
          (chipsPhase pc reply.data).2)) := by
  refine ⟨?_, ?_, ?_⟩
  · intro pc r full cap h
    unfold chipsPhase
    rw [h]
    exact ⟨rfl, fun hp => by simp [hp]⟩
  · intro ps r full cap h hp
    unfold summaryPhase
    rw [h]
    dsimp only
    rw [hp]
  · intro pc ps reply
    rfl

/-- C9 witness: the amended behavior at concrete tagged replies whose
payloads fail to parse: the tags are removed, the chips stay empty. -/
theorem part005_tag_removed_on_parse_failure_witness :
    (chipsPhase noParseChips chipsEx).1 = jsTrimL (replaceFirstL chipsExFull chipsEx) ∧
    (chipsPhase noParseChips chipsEx).2 = [] ∧
    summaryPhase noParseSummary sumEx = jsTrimL (replaceFirstL sumExFull sumEx) :=
  ⟨(part005_tag_removed_on_parse_failure.1 noParseChips chipsEx chipsExFull chipsExCap
      (by decide)).1,
   (part005_tag_removed_on_parse_failure.1 noParseChips chipsEx chipsExFull chipsExCap
      (by decide)).2 rfl,
   part005_tag_removed_on_parse_failure.2.1 noParseSummary sumEx sumExFull sumExCap
     (by decide) rfl⟩

/-- C10: the part_005 send handler is a no-op on degenerate input: when the
current input (chip override or typed input) trims to the empty string, or
a request is already in flight (loading), it returns immediately — the
message list, the chat history, the predictions, the chips, the stage and
the loading flag are all unchanged, and no network request is issued. -/
theorem send_noop_on_degenerate_input (pc : String → Option (List String))
    (ps : String → Option SummaryJson) (s : P5State) (e : P5Ev)
    (h : jsTrimS (jsOrElse e.messageOverride s.userInput) = "" ∨ s.loading = true) :
    part005Send pc ps s e = (s, 0) ∧
    (part005Send pc ps s e).1.messages = s.messages ∧
    (part005Send pc ps s e).1.chats = s.chats ∧
    (part005Send pc ps s e).1.localPredictions = s.localPredictions ∧
    (part005Send pc ps s e).1.loading = s.loading ∧
    (part005Send pc ps s e).2 = 0 := by
  have hmain : part005Send pc ps s e = (s, 0) := by
    unfold part005Send
    dsimp only
    rw [if_pos h]
  refine ⟨hmain, ?_, ?_, ?_, ?_, ?_⟩ <;> rw [hmain]

/-- C10 witness: the no-op at a concrete whitespace-only input and at a
concrete in-flight state. -/
theorem send_noop_on_degenerate_input_witness :
    part005Send noParseChips noParseSummary p5s0 p5e0 = (p5s0, 0) ∧
    part005Send noParseChips noParseSummary p5s1 p5e0 = (p5s1, 0) :=
  ⟨(send_noop_on_degenerate_input noParseChips noParseSummary p5s0 p5e0
      (Or.inl (by decide))).1,
   (send_noop_on_degenerate_input noParseChips noParseSummary p5s1 p5e0
      (Or.inr (by decide))).1⟩
